import Mathlib

set_option maxRecDepth 100000

/-!
Verification of the vulnerability reconciliation-and-analysis core of the
2024WL_SBOM repository.  The Python data model (`src/src/models/entities.py`),
the cleaning pipeline (`src/src/services/cleaner.py`), the merge engine
(`Vulnerability.merge`), the correlation analyzer and risk scorer
(`src/src/services/analyzer.py`), the NVD normalizers
(`src/src/models/nvd.py`, `src/source/model/NVD_OBJ.py`) and the patch
classifier (`src/source/model/entities.py`) are shallowly embedded below;
`float` scores become ℚ, Python `datetime` values become `Option Nat`
timestamps ordered like the originals, and Python dictionaries become
association lists.
-/

/-! ## Python string helpers (ASCII-faithful) -/

/-- Python `str.split()` whitespace set restricted to ASCII:
space, tab, newline, vertical tab, form feed, carriage return. -/
def pyIsSpace (c : Char) : Bool :=
  let n := c.toNat
  n = 32 || n = 9 || n = 10 || n = 11 || n = 12 || n = 13

/-- Python `str.strip()` with no argument: remove leading and trailing
whitespace. -/
def pyStrip (s : String) : String :=
  ⟨((s.data.dropWhile pyIsSpace).reverse.dropWhile pyIsSpace).reverse⟩

/-- Python `str.rstrip('/')`: remove trailing slashes. -/
def rstripSlash (s : String) : String :=
  ⟨(s.data.reverse.dropWhile (· == '/')).reverse⟩

/-- Python `str.lower()` on the ASCII fragment (`Char.toLower` lowers
exactly the ASCII uppercase letters). -/
def pyLower (s : String) : String :=
  ⟨s.data.map Char.toLower⟩

/-- Python `str.startswith(('http://', 'https://'))`. -/
def startsWithHttp (s : String) : Bool :=
  List.isPrefixOf "http://".data s.data || List.isPrefixOf "https://".data s.data

/-- Python substring test `needle in hay` on character lists. -/
def substrIn (needle : List Char) : List Char → Bool
  | [] => needle.isEmpty
  | c :: rest => List.isPrefixOf needle (c :: rest) || substrIn needle rest

/-- Python `str.isprintable()` on the ASCII fragment: codepoints 0x20–0x7E
are printable, controls are not; non-ASCII codepoints other than the C1
controls are treated as printable. -/
def pyIsPrintable (c : Char) : Bool :=
  let n := c.toNat
  32 ≤ n && n ≠ 127 && !(128 ≤ n && n ≤ 160)

/-- Python `str.split(':')` (keeps empty fields, `""` yields `[""]`). -/
def splitColonGo (cur : List Char) : List Char → List String
  | [] => [⟨cur.reverse⟩]
  | c :: cs => if c == ':' then ⟨cur.reverse⟩ :: splitColonGo [] cs
               else splitColonGo (c :: cur) cs

/-- Python `str.split(':')`. -/
def splitColon (s : String) : List String :=
  splitColonGo [] s.data

/-- Python `dict.get(k, dflt)` on an association list. -/
def dictGet (d : List (String × String)) (k dflt : String) : String :=
  match d.find? (fun kv => kv.1 == k) with
  | some kv => kv.2
  | none => dflt

/-- Python `dict.update`: existing keys keep their position but take the
incoming value; new keys are appended in incoming order. -/
def dictUpdate (a b : List (String × String)) : List (String × String) :=
  a.map (fun kv => (kv.1, dictGet b kv.1 kv.2)) ++
    b.filter (fun kv => !(a.any (fun kv2 => kv2.1 == kv.1)))

/-- Python truthiness of an optional string (`None` and `""` are falsy). -/
def truthyStr (s : Option String) : Bool :=
  match s with
  | none => false
  | some t => t != ""

/-! ## Entity model (`src/src/models/entities.py`) -/

/-- `Reference` dataclass. -/
structure Reference where
  url : String
  source : String := "unknown"
  type : String := "other"
  tags : List String := []
deriving DecidableEq, Repr

/-- `CVSSMetrics` dataclass; `base_score` is the Python float as ℚ. -/
structure CVSSMetrics where
  version : String
  vector_string : String
  base_score : ℚ
  base_severity : Option String := none
  exploitability_score : Option ℚ := none
  impact_score : Option ℚ := none
  status : Option String := none
deriving DecidableEq, Repr

/-- `Version` dataclass. -/
structure Version where
  version : String
  release : Option String := none
  architecture : Option String := none
  status : String := "unknown"
  repositories : List String := []
deriving DecidableEq, Repr

/-- `Package` dataclass. -/
structure Package where
  name : String
  ecosystem : Option String := none
  platform : Option String := none
  versions : List Version := []
  affected_versions : List String := []
  fixed_versions : List String := []
deriving DecidableEq, Repr

/-- `Package.is_affected`: membership of the version string in
`affected_versions` (the TODO version-range comparison is not implemented
in the source). -/
def Package.is_affected (p : Package) (version : String) : Bool :=
  p.affected_versions.contains version

/-- `Vulnerability` dataclass.  `datetime` fields are `Option Nat`
timestamps (ordered as the original datetimes), `patches` entries are the
Python string dictionaries as association lists, `affected_configurations`
and `raw_data` values are opaque strings. -/
structure Vulnerability where
  id : String
  source : String
  title : Option String := none
  description : Option String := none
  published_date : Option Nat := none
  last_modified_date : Option Nat := none
  discovered_date : Option Nat := none
  severity : Option String := none
  cvss_v3 : Option CVSSMetrics := none
  cvss_v2 : Option CVSSMetrics := none
  status : String := "unknown"
  scope : Option String := none
  affected_packages : List Package := []
  affected_configurations : List String := []
  references : List Reference := []
  patches : List (List (String × String)) := []
  notes : List String := []
  raw_data : List (String × String) := []
deriving DecidableEq, Repr

/-! ## Merge engine (`Vulnerability.merge` in `src/src/models/entities.py`) -/

/-- The optional-timestamp maximum (present values dominate `none`). -/
def omax : Option Nat → Option Nat → Option Nat
  | none, b => b
  | some a, none => some a
  | some a, some b => some (max a b)

/-- Field-level body of `Vulnerability.merge`, as a pure function from
(self, other) to the updated self.  Mirrors the Python statement by
statement; the `self.id != other.id` guard is in `mergeVuln` below.
Note: the Python `existing_packages` dictionary and `existing_patches`
set are built once from `self` and not extended inside their loops, so
duplicates inside `other` are all appended; the reference set is extended
inside the loop. -/
def mergeRecords (self other : Vulnerability) : Vulnerability :=
  { self with
    title := if truthyStr other.title && !truthyStr self.title
             then other.title else self.title
    description := if truthyStr other.description && !truthyStr self.description
                   then other.description else self.description
    last_modified_date :=
      match other.last_modified_date with
      | none => self.last_modified_date
      | some o =>
        match self.last_modified_date with
        | none => some o
        | some s => if o > s then some o else self.last_modified_date
    cvss_v3 := if other.cvss_v3.isSome && self.cvss_v3.isNone
               then other.cvss_v3 else self.cvss_v3
    cvss_v2 := if other.cvss_v2.isSome && self.cvss_v2.isNone
               then other.cvss_v2 else self.cvss_v2
    affected_packages := self.affected_packages ++
      other.affected_packages.filter
        (fun p => !(self.affected_packages.any (fun q => q.name == p.name)))
    references :=
      (other.references.foldl
        (fun (st : List Reference × List String) r =>
          if st.2.contains r.url then st
          else (st.1 ++ [r], st.2 ++ [r.url]))
        (self.references, self.references.map (fun r => r.url))).1
    patches := self.patches ++
      other.patches.filter
        (fun p => !((self.patches.map (fun q => dictGet q "url" "")).contains
                      (dictGet p "url" "")))
    notes := self.notes ++ other.notes.filter (fun n => !(self.notes.contains n))
    raw_data := dictUpdate self.raw_data other.raw_data }

/-- `Vulnerability.merge`: raises `ValueError` on differing ids, modelled
as `none`. -/
def mergeVuln (self other : Vulnerability) : Option Vulnerability :=
  if self.id == other.id then some (mergeRecords self other) else none

/-! ## Cleaning pipeline (`src/src/services/cleaner.py`) -/

/-- One-pass translation of `re.sub(r'<[^>]+>', '', desc)`: a `<` opens a
buffer; a later `>` discards the buffer when it holds at least one
character besides the `<` (the regex needs a non-empty `[^>]+`), otherwise
the literal `<>` is kept; a buffer still open at the end is emitted
verbatim (no closing `>`, so no match). -/
def stripTagsGo : Option (List Char) → List Char → List Char
  | none, [] => []
  | some buf, [] => buf.reverse
  | none, c :: cs =>
    if c == '<' then stripTagsGo (some [c]) cs
    else c :: stripTagsGo none cs
  | some buf, c :: cs =>
    if c == '>' then
      if 2 ≤ buf.length then stripTagsGo none cs
      else buf.reverse ++ '>' :: stripTagsGo none cs
    else stripTagsGo (some (c :: buf)) cs

/-- Python `' '.join(desc.split())`: split on whitespace runs, drop empty
pieces, rejoin with single spaces. -/
def wsplitGo (cur : List Char) : List Char → List (List Char)
  | [] => if cur.isEmpty then [] else [cur.reverse]
  | c :: cs =>
    if pyIsSpace c then
      if cur.isEmpty then wsplitGo [] cs else cur.reverse :: wsplitGo [] cs
    else wsplitGo (c :: cur) cs

/-- Whitespace collapse used by `clean_description`. -/
def collapseWs (l : List Char) : List Char :=
  List.intercalate [' '] (wsplitGo [] l)

/-- `CleanerService.clean_description`: `None`/empty in, `None` out;
otherwise strip markup tags, collapse whitespace, drop non-printable
characters — in that order. -/
def clean_description (d : Option String) : Option String :=
  match d with
  | none => none
  | some s =>
    if s == "" then none
    else some ⟨(collapseWs (stripTagsGo none s.data)).filter pyIsPrintable⟩

/-- URL normalization inside `clean_references`: trim, strip trailing
slashes, prepend the scheme when absent. -/
def normalizeUrl (url : String) : String :=
  let u := rstripSlash (pyStrip url)
  if startsWithHttp u then u else "https://" ++ u

/-- `CleanerService.clean_references`: skip falsy URLs, normalize, then
deduplicate by the normalized URL keeping the first occurrence (whose
`url` field is overwritten with the normalized form). -/
def clean_references (refs : List Reference) : List Reference :=
  (refs.foldl
    (fun (st : List Reference × List String) r =>
      if r.url == "" then st
      else
        let u := normalizeUrl r.url
        if st.2.contains u then st
        else (st.1 ++ [{ r with url := u }], st.2 ++ [u]))
    ([], [])).1

/-- First-occurrence deduplication of a string list.  Python builds these
lists with `list(set(...))`, whose order is unspecified; the model fixes
the first-occurrence order. -/
def dedupKeepFirst (l : List String) : List String :=
  (l.foldl (fun (st : List String × List String) v =>
    if st.2.contains v then st else (st.1 ++ [v], st.2 ++ [v])) ([], [])).1

/-- `CleanerService.clean_package`: lower-case and trim `name` and (truthy)
`ecosystem`; deduplicate `versions` by trimmed version string dropping
blanks; rebuild `affected_versions`/`fixed_versions` as deduplicated
trimmed non-blank lists. -/
def clean_package (p : Package) : Package :=
  { p with
    name := pyLower (pyStrip p.name)
    ecosystem :=
      match p.ecosystem with
      | none => none
      | some e => if e != "" then some (pyLower (pyStrip e)) else some e
    versions :=
      (p.versions.foldl
        (fun (st : List Version × List String) v =>
          let ver := pyStrip v.version
          if ver != "" && !(st.2.contains ver) then
            (st.1 ++ [{ v with version := ver }], st.2 ++ [ver])
          else st)
        ([], [])).1
    affected_versions :=
      dedupKeepFirst ((p.affected_versions.map pyStrip).filter (fun v => v != ""))
    fixed_versions :=
      dedupKeepFirst ((p.fixed_versions.map pyStrip).filter (fun v => v != "")) }

/-- `CleanerService.clean_vulnerability`: clean description, references,
packages; deduplicate patches by trimmed non-blank `url` (keeping each
first patch dictionary unmodified); trim notes and drop blanks.  All other
fields are passed through. -/
def clean_vulnerability (v : Vulnerability) : Vulnerability :=
  { v with
    description := clean_description v.description
    references := clean_references v.references
    affected_packages := v.affected_packages.map clean_package
    patches :=
      (v.patches.foldl
        (fun (st : List (List (String × String)) × List String) pch =>
          let url := pyStrip (dictGet pch "url" "")
          if url != "" && !(st.2.contains url) then (st.1 ++ [pch], st.2 ++ [url])
          else st)
        ([], [])).1
    notes := (v.notes.map pyStrip).filter (fun n => n != "") }

/-- The concrete reference list of the C5 reference-deduplication example. -/
def c5refs : List Reference :=
  [{ url := "example.com/a" }, { url := "http://example.com/a" }]

/-- The concrete vulnerability of the C6 idempotence check: one reference
whose URL is a bare slash. -/
def c6v : Vulnerability :=
  { id := "CVE-C6", source := "NVD", references := [{ url := "/" }] }

/-! ## Correlation analyzer (`AnalyzerService.analyze_correlations`)

The TF-IDF/cosine similarity values are floating point and produced by an
external library; the grouping loop consumes only the matrix entries, so
it is embedded over an abstract similarity function `sim : Nat → Nat → ℚ`
on record indices, with the threshold `min_similarity` as a parameter. -/

/-- Inner loop of the grouping: all indices `j ≠ i` whose similarity to
`i` reaches the threshold.  The Python loop does not consult
`used_indices` here. -/
def similarIndices (sim : Nat → Nat → ℚ) (thr : ℚ) (n i : Nat) : List Nat :=
  (List.range n).filter (fun j => i != j && decide (thr ≤ sim i j))

/-- Outer loop of the grouping: visit indices in order, skip an index
already in `used`, emit `anchor :: matches` when matches exist and mark
anchor and matches used. -/
def clusterGo (sim : Nat → Nat → ℚ) (thr : ℚ) (n : Nat) :
    List Nat → List Nat → List (List Nat)
  | [], _ => []
  | i :: rest, used =>
    if i ∈ used then clusterGo sim thr n rest used
    else if (similarIndices sim thr n i).isEmpty then clusterGo sim thr n rest used
    else (i :: similarIndices sim thr n i) ::
      clusterGo sim thr n rest (used ++ i :: similarIndices sim thr n i)

/-- The similar-group computation of `analyze_correlations`, as index
clusters. -/
def findSimilarGroups (sim : Nat → Nat → ℚ) (thr : ℚ) (n : Nat) :
    List (List Nat) :=
  clusterGo sim thr n (List.range n) []

/-- Following the spec wording for comparison: identical loop, but a
cluster collects only the not-yet-assigned records whose similarity
reaches the threshold. -/
def clusterGoSpec (sim : Nat → Nat → ℚ) (thr : ℚ) (n : Nat) :
    List Nat → List Nat → List (List Nat)
  | [], _ => []
  | i :: rest, used =>
    if i ∈ used then clusterGoSpec sim thr n rest used
    else if ((similarIndices sim thr n i).filter
        (fun j => decide (j ∉ used))).isEmpty then
      clusterGoSpec sim thr n rest used
    else (i :: (similarIndices sim thr n i).filter (fun j => decide (j ∉ used))) ::
      clusterGoSpec sim thr n rest
        (used ++ i :: (similarIndices sim thr n i).filter (fun j => decide (j ∉ used)))

/-- The spec-worded grouping. -/
def findSimilarGroupsSpec (sim : Nat → Nat → ℚ) (thr : ℚ) (n : Nat) :
    List (List Nat) :=
  clusterGoSpec sim thr n (List.range n) []

/-! ## Relationship graph (`AnalyzerService.analyze_correlations`) -/

/-- The networkx graph state: nodes as (id, type) pairs, edges as
(source, target) pairs, both in insertion order. -/
structure GraphState where
  nodes : List (String × String)
  edges : List (String × String)
deriving DecidableEq, Repr

/-- `graph.has_node`. -/
def hasNode (st : GraphState) (x : String) : Bool :=
  st.nodes.any (fun nd => nd.1 == x)

/-- First step per package: add the package node when absent. -/
def stepNode (st : GraphState) (p : Package) : GraphState :=
  if hasNode st p.name then st
  else { st with nodes := st.nodes ++ [(p.name, "package")] }

/-- Second step: when the ecosystem tag is truthy and no node with that
identifier exists, add the ecosystem node and the package→ecosystem edge
(both only in that case). -/
def stepEco (st : GraphState) (p : Package) : GraphState :=
  match p.ecosystem with
  | none => st
  | some e =>
    if e != "" && !hasNode st e then
      { nodes := st.nodes ++ [(e, "ecosystem")], edges := st.edges ++ [(p.name, e)] }
    else st

/-- Third step: same for the platform tag. -/
def stepPlatform (st : GraphState) (p : Package) : GraphState :=
  match p.platform with
  | none => st
  | some q =>
    if q != "" && !hasNode st q then
      { nodes := st.nodes ++ [(q, "platform")], edges := st.edges ++ [(p.name, q)] }
    else st

/-- Per-package body of the graph loop. -/
def processPkg (st : GraphState) (p : Package) : GraphState :=
  stepPlatform (stepEco (stepNode st p) p) p

/-- Graph construction over a flat package list. -/
def buildGraphP (pkgs : List Package) : GraphState :=
  pkgs.foldl processPkg ⟨[], []⟩

/-- Graph construction of `analyze_correlations`: for each vulnerability,
for each affected package, run the three steps. -/
def buildGraph (vulns : List Vulnerability) : GraphState :=
  vulns.foldl (fun st v => v.affected_packages.foldl processPkg st) ⟨[], []⟩

/-! ## Risk scorer (`AnalyzerService.assess_risk`) -/

/-- Best-available CVSS base score: v3 preferred, else v2, else 0. -/
def bestScore (v : Vulnerability) : ℚ :=
  match v.cvss_v3 with
  | some m => m.base_score
  | none =>
    match v.cvss_v2 with
    | some m => m.base_score
    | none => 0

/-- Whether the vulnerability counts as fixed for the package: some
affected-package entry with that name carries a non-empty
`fixed_versions` list. -/
def isFixedFor (package_name : String) (v : Vulnerability) : Bool :=
  v.affected_packages.any (fun p => p.name == package_name && !p.fixed_versions.isEmpty)

/-- Update of the running latest vulnerability: the first record always
wins the empty slot; later records replace it only when both publication
dates are present and the newcomer is strictly later. -/
def latestUpd (cur : Option Vulnerability) (v : Vulnerability) :
    Option Vulnerability :=
  match cur with
  | none => some v
  | some l =>
    match v.published_date, l.published_date with
    | some dv, some dl => if dv > dl then some v else some l
    | _, _ => some l

/-- Loop state of the scoring loop in `assess_risk`. -/
structure RiskLoopState where
  total : ℚ
  maxScore : ℚ
  active : Nat
  fixed : Nat
  latest : Option Vulnerability
deriving Repr

/-- Body of the scoring loop. -/
def riskStep (package_name : String) (st : RiskLoopState) (v : Vulnerability) :
    RiskLoopState :=
  { total := st.total + bestScore v
    maxScore := max st.maxScore (bestScore v)
    active := if isFixedFor package_name v then st.active else st.active + 1
    fixed := if isFixedFor package_name v then st.fixed + 1 else st.fixed
    latest := latestUpd st.latest v }

/-- The scoring loop. -/
def riskFold (package_name : String) (vulns : List Vulnerability) : RiskLoopState :=
  vulns.foldl (riskStep package_name) ⟨0, 0, 0, 0, none⟩

/-- Python `round(q, 2)` (round half to even, exact on ℚ; the
double-precision representation of the Python float is not modelled). -/
def round2 (q : ℚ) : ℚ :=
  let x := q * 100
  let f := ⌊x⌋
  let r := x - f
  (if r < 1/2 then f
   else if r > 1/2 then f + 1
   else if f % 2 = 0 then f else f + 1) / 100

/-- Risk level thresholds, applied to the unrounded score. -/
def riskLevelOf (score : ℚ) : String :=
  if score ≥ 7 then "high"
  else if score ≥ 4 then "medium"
  else if score > 0 then "low"
  else "unknown"

/-- Recommendation lookup table by risk level. -/
def recommendationOf (level : String) : String :=
  if level == "high" then
    "Immediate action recommended. Update to the latest version or implement security controls."
  else if level == "medium" then
    "Update recommended. Review and patch vulnerabilities based on your security policy."
  else if level == "low" then
    "Monitor for updates. Update during your regular maintenance window."
  else
    "No known vulnerabilities. Continue monitoring for new security advisories."

/-- Result dictionary of `assess_risk`.  The empty-input early return has
no `max_cvss_score` key; the model uses 0 there. -/
structure RiskResult where
  risk_level : String
  risk_score : ℚ
  max_cvss_score : ℚ
  active_vulnerabilities : Nat
  fixed_vulnerabilities : Nat
  latest_vulnerability : Option String
  recommendation : String
deriving DecidableEq, Repr

/-- `AnalyzerService.assess_risk` with the database lookup replaced by the
list of vulnerabilities affecting the package.  When a version is given
the list is refiltered (a vulnerability is appended once per matching
package entry, as in the Python loop); the risk score divides the summed
best-available scores — counting unscored vulnerabilities as 0 — by the
total number of (filtered) vulnerabilities. -/
def assess_risk (package_name : String) (version : Option String)
    (vulns0 : List Vulnerability) : RiskResult :=
  if vulns0.isEmpty then
    { risk_level := "unknown", risk_score := 0, max_cvss_score := 0
      active_vulnerabilities := 0, fixed_vulnerabilities := 0
      latest_vulnerability := none
      recommendation := "No known vulnerabilities" }
  else
    let vulns :=
      match version with
      | none => vulns0
      | some ver =>
        vulns0.foldl
          (fun acc v => acc ++
            (v.affected_packages.filter
              (fun p => p.name == package_name && p.is_affected ver)).map
              (fun _ => v))
          []
    let st := riskFold package_name vulns
    let risk_score : ℚ := if vulns.isEmpty then 0 else st.total / vulns.length
    let level := riskLevelOf risk_score
    { risk_level := level
      risk_score := round2 risk_score
      max_cvss_score := round2 st.maxScore
      active_vulnerabilities := st.active
      fixed_vulnerabilities := st.fixed
      latest_vulnerability := st.latest.map (fun l => l.id)
      recommendation := recommendationOf level }

/-! ## NVD source normalizer (`src/src/models/nvd.py`) -/

/-- A CPE match dictionary as read by `_extract_affected_packages`:
`cpe23Uri` defaults to the empty string and `vulnerable` to `True`. -/
structure CPEMatch where
  cpe23Uri : String := ""
  vulnerable : Bool := true
  versionStartIncluding : Option String := none
  versionStartExcluding : Option String := none
  versionEndIncluding : Option String := none
  versionEndExcluding : Option String := none
deriving DecidableEq, Repr

/-- A configuration node: CPE matches plus nested child nodes (the
`operator`/`negate` keys are never read by the extractor). -/
inductive NodeT where
  | mk (cpeMatch : List CPEMatch) (children : List NodeT)

/-- One NVD configuration blob: its `nodes` list. -/
structure NVDConfigurationT where
  nodes : List NodeT

/-- Append a version to the first package with the given name (the Python
code mutates the package found by `next(...)`). -/
def addVerFirst : List Package → String → Version → List Package
  | [], _, _ => []
  | p :: ps, nm, ver =>
    if p.name == nm then { p with versions := p.versions ++ [ver] } :: ps
    else p :: addVerFirst ps nm ver

/-- Body of the `cpe_match` loop in `_extract_affected_packages`: skip
falsy or short identifiers, create the package on first sight, append a
`Version` unless the version field is the wildcard. -/
def addCpe (pkgs : List Package) (cm : CPEMatch) : List Package :=
  if cm.cpe23Uri == "" then pkgs
  else
    let parts := splitColon cm.cpe23Uri
    if parts.length < 5 then pkgs
    else
      let vendor := parts.getD 3 ""
      let product := parts.getD 4 ""
      let version := if parts.length > 5 then parts.getD 5 "" else "*"
      let pkgName := vendor ++ "/" ++ product
      let pkgs1 :=
        if pkgs.any (fun p => p.name == pkgName) then pkgs
        else pkgs ++ [{ name := pkgName, ecosystem := some "cpe",
                        platform := some (parts.getD 2 "") }]
      if version != "*" then
        addVerFirst pkgs1 pkgName
          { version := version
            status := if cm.vulnerable then "affected" else "fixed" }
      else pkgs1

mutual

/-- `process_node`: handle the node own matches, then recurse into the
children. -/
def processNode (pkgs : List Package) : NodeT → List Package
  | .mk cms children => processNodes (cms.foldl addCpe pkgs) children

/-- Recursion of `process_node` over a node list. -/
def processNodes (pkgs : List Package) : List NodeT → List Package
  | [] => pkgs
  | nd :: nds => processNodes (processNode pkgs nd) nds

end

/-- `NVDData._extract_affected_packages` over the configuration list. -/
def extractAffectedPackages (configs : List NVDConfigurationT) : List Package :=
  configs.foldl (fun pkgs c => processNodes pkgs c.nodes) []

/-! ## Raw NVD records and the two normalizer entry points -/

/-- A raw localized description dictionary. -/
structure RawDesc where
  lang : Option String := none
  value : Option String := none
deriving DecidableEq, Repr

/-- A raw reference dictionary. -/
structure RawRef where
  url : Option String := none
  source : Option String := none
  tags : Option (List String) := none
deriving DecidableEq, Repr

/-- A raw weakness description entry. -/
structure RawWeaknessDesc where
  lang : Option String := none
  value : Option String := none
deriving DecidableEq, Repr

/-- A raw weakness dictionary. -/
structure RawWeakness where
  description : List RawWeaknessDesc := []
deriving DecidableEq, Repr

/-- The `cvssData` dictionary of a metric entry. -/
structure RawCvssData where
  vectorString : Option String := none
  baseScore : Option ℚ := none
deriving DecidableEq, Repr

/-- One entry of the `cvssMetricV31` list. -/
structure RawMetricEntry where
  cvssData : Option RawCvssData := none
deriving DecidableEq, Repr

/-- The raw `metrics` dictionary (only the key the normalizer reads). -/
structure RawMetrics where
  cvssMetricV31 : Option (List RawMetricEntry) := none
deriving DecidableEq, Repr

/-- The raw `cve` item of an NVD API response (fields read by the two
normalizers; configuration blobs are opaque strings here). -/
structure RawCveItem where
  id : Option String := none
  published : Option String := none
  lastModified : Option String := none
  vulnStatus : Option String := none
  descriptions : List RawDesc := []
  metrics : Option RawMetrics := none
  weaknesses : List RawWeakness := []
  references : List RawRef := []
  configurations : List String := []
deriving DecidableEq, Repr

/-- A raw NVD API record (`data`), possibly lacking the `cve` key. -/
structure RawData where
  cve : Option RawCveItem := none
deriving DecidableEq, Repr

/-- A normalized reference dictionary built by `from_json`. -/
structure NormRef where
  url : String
  source : String
  tags : List String
deriving DecidableEq, Repr

/-- The `NVDData` dataclass of `src/source/model/NVD_OBJ.py`. -/
structure NVDDataSrc where
  cve_id : String
  description : String
  published_date : String
  last_modified_date : String
  cvss_v3_vector : String
  cvss_v3_base_score : ℚ
  cwe_id : Option String
  references : List NormRef
  configurations : List String
deriving DecidableEq, Repr

/-- Python `str.startswith(pre)`. -/
def strStartsWith (s pre : String) : Bool :=
  List.isPrefixOf pre.data s.data

/-- CWE extraction of `from_json`: first English weakness description
whose value starts with `CWE-`, reduced to the part before the first
colon, trimmed. -/
def findCwe (ws : List RawWeakness) : Option String :=
  ((ws.map (fun w => w.description)).flatten.find?
    (fun d => d.lang == some "en" && strStartsWith (d.value.getD "") "CWE-")).map
    (fun d => pyStrip ((splitColon (d.value.getD "")).headD ""))

/-- `NVDData.from_json` of `src/source/model/NVD_OBJ.py`: every missing
field degrades to a default; in particular a missing `id` becomes the
empty string.  `cve_item.get('metrics', {}).get('cvssMetricV31', [{}])[0]`
indexes a defaulted singleton when `metrics` or its `cvssMetricV31` key is
absent, but raises `IndexError` when the key is present with an explicitly
empty list — that failure path is `none` here. -/
def from_json (data : RawData) : Option NVDDataSrc :=
  let cveItem := data.cve.getD {}
  let description :=
    ((cveItem.descriptions.find? (fun d => d.lang == some "en")).map
      (fun d => d.value.getD "")).getD ""
  let metricList :=
    match cveItem.metrics with
    | none => [({} : RawMetricEntry)]
    | some m =>
      match m.cvssMetricV31 with
      | none => [({} : RawMetricEntry)]
      | some l => l
  match metricList with
  | [] => none
  | entry :: _ =>
    let cvssData := entry.cvssData.getD {}
    some { cve_id := cveItem.id.getD ""
           description := description
           published_date := cveItem.published.getD ""
           last_modified_date := cveItem.lastModified.getD ""
           cvss_v3_vector := cvssData.vectorString.getD ""
           cvss_v3_base_score := cvssData.baseScore.getD 0
           cwe_id := findCwe cveItem.weaknesses
           references := cveItem.references.map
             (fun r => { url := r.url.getD "", source := r.source.getD "",
                         tags := r.tags.getD [] })
           configurations := cveItem.configurations }

/-- The `NVDData` dataclass of `src/src/models/nvd.py` (fields relevant to
`from_dict`); the two dates hold the values parsed by
`datetime.fromisoformat`, as abstract timestamps. -/
structure NVDDataM where
  id : Option String
  published : Nat
  lastModified : Nat
  vulnStatus : Option String
  descriptions : List RawDesc
  metrics : Option RawMetrics
  references : List RawRef
  configurations : List String
deriving DecidableEq, Repr

/-- `NVDData.from_dict` of `src/src/models/nvd.py`, parameterized by the
external date parser `parseDate` standing for `datetime.fromisoformat`:
the parser raises `TypeError` on a missing value and `ValueError` on a
present malformed string — both failures are `none` here; the `id` is read
with `cve.get('id')` and is simply absent when missing — no failure. -/
def from_dict (parseDate : String → Option Nat) (data : RawData) :
    Option NVDDataM :=
  let cve := data.cve.getD {}
  match cve.published, cve.lastModified with
  | some p, some l =>
    match parseDate p, parseDate l with
    | some dp, some dl =>
      some { id := cve.id, published := dp, lastModified := dl
             vulnStatus := cve.vulnStatus, descriptions := cve.descriptions
             metrics := cve.metrics, references := cve.references
             configurations := cve.configurations }
    | _, _ => none
  | _, _ => none

/-! ## Patch classifier (`Patch.is_likely_patch` in
`src/source/model/entities.py`) -/

/-- The fixed keyword list. -/
def patch_keywords : List String :=
  ["patch", "fix", "update", "resolve", "mitigate"]

/-- `Patch.is_likely_patch`: a keyword occurs in the lower-cased URL, or
the tag list contains the exact tag `Patch`.  The tag texts themselves are
not searched for keywords. -/
def is_likely_patch (url : String) (tags : List String) : Bool :=
  patch_keywords.any (fun k => substrIn k.data (pyLower url).data) ||
    tags.contains "Patch"

/-- Following the spec wording for comparison: the keywords are also
searched case-insensitively inside each tag text. -/
def specLikelyPatch (url : String) (tags : List String) : Bool :=
  patch_keywords.any (fun k => substrIn k.data (pyLower url).data) ||
    tags.any (fun t => patch_keywords.any (fun k => substrIn k.data (pyLower t).data)) ||
    tags.contains "Patch"

/-! ## Concrete inputs used by the claim theorems -/

/-- A CVSS v3 metric with base score 9.0. -/
def cvss9 : CVSSMetrics := { version := "3.1", vector_string := "V9", base_score := 9 }

/-- A CVSS v3 metric with base score 5.0. -/
def cvss5 : CVSSMetrics := { version := "3.1", vector_string := "V5", base_score := 5 }

/-- Vulnerability scored 9.0 affecting package p. -/
def c1v1 : Vulnerability :=
  { id := "V-1", source := "NVD", cvss_v3 := some cvss9
    affected_packages := [{ name := "p" }] }

/-- Vulnerability scored 5.0 affecting package p. -/
def c1v2 : Vulnerability :=
  { id := "V-2", source := "NVD", cvss_v3 := some cvss5
    affected_packages := [{ name := "p" }] }

/-- Vulnerability with neither CVSS score affecting package p. -/
def c1v3 : Vulnerability :=
  { id := "V-3", source := "NVD", affected_packages := [{ name := "p" }] }

/-- First merge input: same id, title X. -/
def c2a : Vulnerability := { id := "CVE-C2", source := "A", title := some "X" }

/-- Second merge input: same id, title Y. -/
def c2b : Vulnerability := { id := "CVE-C2", source := "B", title := some "Y" }

/-- Similarity matrix of the clustering counterexample: records 0–1 and
1–2 are similar (0.9), records 0–2 are not (0.1). -/
def simEx (i j : Nat) : ℚ :=
  if (i, j) ∈ ([(0, 1), (1, 0), (1, 2), (2, 1)] : List (Nat × Nat)) then 9/10
  else if i = j then 1 else 1/10

/-- First package of the graph counterexample, ecosystem npm. -/
def c4p1 : Package := { name := "p1", ecosystem := some "npm" }

/-- Second package of the graph counterexample, same ecosystem npm. -/
def c4p2 : Package := { name := "p2", ecosystem := some "npm" }

/-- Vulnerability carrying the two npm packages. -/
def c4v : Vulnerability :=
  { id := "CVE-C4", source := "NVD", affected_packages := [c4p1, c4p2] }

/-- CPE match of the versioned decomposition example. -/
def c7cm1 : CPEMatch := { cpe23Uri := "cpe:2.3:a:acme:widget:1.2:*:*:*:*:*:*:*" }

/-- CPE match of the wildcard-version decomposition example. -/
def c7cm2 : CPEMatch := { cpe23Uri := "cpe:2.3:a:acme:widget:*:*:*:*:*:*:*:*" }

/-- The package both C7 examples must produce. -/
def c7pkg : Package :=
  { name := "acme/widget", ecosystem := some "cpe", platform := some "a" }

/-- A raw NVD record that lacks an identifier but has well-formed dates. -/
def c8raw : RawData :=
  { cve := some { id := none, published := some "2024-01-01T00:00:00"
                  lastModified := some "2024-01-02T00:00:00" } }


/-- Additional concrete merge inputs used by the C2 witness. -/
def w2a : Vulnerability :=
  { id := "CVE-W2", source := "A", title := some "T", last_modified_date := some 5 }

/-- Second C2 witness input: no title, later modification date. -/
def w2b : Vulnerability :=
  { id := "CVE-W2", source := "B", title := none, last_modified_date := some 9 }

/-- The raw `cve` item of `c8raw`, named for the C8 witness. -/
def c8item : RawCveItem :=
  { id := none, published := some "2024-01-01T00:00:00"
    lastModified := some "2024-01-02T00:00:00" }

/-- The behaviour of `datetime.fromisoformat` on the two well-formed date
strings of `c8raw`, as their POSIX timestamps; every other string is a
parse failure. -/
def c8parse : String → Option Nat
  | "2024-01-01T00:00:00" => some 1704067200
  | "2024-01-02T00:00:00" => some 1704153600
  | _ => none

/-- The colon-split fields of a CPE match identifier. -/
def cpeParts (cm : CPEMatch) : List String :=
  splitColon cm.cpe23Uri

/-- The package a well-formed CPE identifier decomposes to: named
`vendor/product` (fields 3 and 4), ecosystem `cpe`, platform field 2. -/
def cpeBase (cm : CPEMatch) : Package :=
  { name := (cpeParts cm).getD 3 "" ++ "/" ++ (cpeParts cm).getD 4 ""
    ecosystem := some "cpe"
    platform := some ((cpeParts cm).getD 2 "") }

/-- The version field of a CPE identifier (field 5, wildcard when there
are only 5 fields). -/
def cpeVersionField (cm : CPEMatch) : String :=
  if 5 < (cpeParts cm).length then (cpeParts cm).getD 5 "" else "*"

/-- Well-formedness invariant of the relationship-graph state: node
identifiers are pairwise distinct, edges are pairwise distinct, and every
edge target is a node. -/
def GoodState (st : GraphState) : Prop :=
  (st.nodes.map Prod.fst).Nodup ∧ st.edges.Nodup ∧
    ∀ a ∈ st.edges, a.2 ∈ st.nodes.map Prod.fst

/-! ## Helper lemmas -/

theorem omax_comm (a b : Option Nat) : omax a b = omax b a := by
  cases a <;> cases b <;> simp [omax, Nat.max_comm]

theorem mergeRecords_lmd (a b : Vulnerability) :
    (mergeRecords a b).last_modified_date =
      omax a.last_modified_date b.last_modified_date := by
  cases ha : a.last_modified_date <;> cases hb : b.last_modified_date <;>
    simp [mergeRecords, omax, ha, hb]
  case some.some s o =>
    rcases Nat.lt_or_ge s o with h | h
    · simp [h, Nat.max_eq_right (Nat.le_of_lt h)]
    · have : ¬ (o > s) := Nat.not_lt.mpr h
      simp [this, Nat.max_eq_left h]

/-! ## C5 — reference cleaning on the spec example (code bug) -/

/-- C5: Reference cleaning drops empty URLs, trims, strips a trailing
slash, prepends the scheme when absent and deduplicates by normalized URL
keeping the first occurrence — but on the spec example
`["example.com/a", "http://example.com/a"]` the code yields TWO
references, `https://example.com/a` and `http://example.com/a`, because a
present `http://` scheme is preserved and deduplication compares the full
normalized strings.  This contradicts the claim (and the usage doc comment
in `cleaner.py`, which promises deduplication of exactly such a pair), so
the claim is recorded as a code bug; this theorem evaluates the code at
the failing input. -/
theorem c5_failing_eval :
    clean_references c5refs =
      [{ url := "https://example.com/a" }, { url := "http://example.com/a" }] ∧
    (clean_references c5refs).length = 2 := by
  decide

/-! ## C6 — cleaning is not idempotent (code bug) -/

/-- C6: The cleaning contract demands idempotence, but a reference whose
URL is a bare slash normalizes to `https://` on the first pass and to
`https://https:` on the second (the trailing-slash strip turns
`https://` into `https:`, which no longer carries a scheme), so
`clean(clean(v)) ≠ clean(v)`.  This theorem evaluates the code at the
failing input. -/
theorem c6_failing_eval :
    clean_vulnerability (clean_vulnerability c6v) ≠ clean_vulnerability c6v ∧
    (clean_vulnerability c6v).references = [{ url := "https://" }] ∧
    (clean_vulnerability (clean_vulnerability c6v)).references =
      [{ url := "https://https:" }] := by
  decide

/-! ## C10 — clean_vulnerability frame effect (confirmed) -/

/-- C10: `clean_vulnerability` modifies only the description, references,
affected packages, patches and notes; the id, source, title, severity,
CVSS objects, all three dates, status, scope, affected configurations and
raw data are returned unchanged. -/
theorem c10_clean_frame (v : Vulnerability) :
    (clean_vulnerability v).id = v.id ∧
    (clean_vulnerability v).source = v.source ∧
    (clean_vulnerability v).title = v.title ∧
    (clean_vulnerability v).severity = v.severity ∧
    (clean_vulnerability v).cvss_v2 = v.cvss_v2 ∧
    (clean_vulnerability v).cvss_v3 = v.cvss_v3 ∧
    (clean_vulnerability v).published_date = v.published_date ∧
    (clean_vulnerability v).last_modified_date = v.last_modified_date ∧
    (clean_vulnerability v).discovered_date = v.discovered_date ∧
    (clean_vulnerability v).status = v.status ∧
    (clean_vulnerability v).scope = v.scope ∧
    (clean_vulnerability v).affected_configurations = v.affected_configurations ∧
    (clean_vulnerability v).raw_data = v.raw_data := by
  refine ⟨rfl, rfl, rfl, rfl, rfl, rfl, rfl, rfl, rfl, rfl, rfl, rfl, rfl⟩

/-! ## C2 — merge order properties (corrected) -/

/-- C2 counterexample: two records with the same identifier but different
non-empty titles merge to different titles depending on the order, because
the merge keeps the accumulator title whenever it is non-empty. -/
theorem c2_counterexample :
    c2a.id = c2b.id ∧
    (mergeRecords c2a c2b).title = some "X" ∧
    (mergeRecords c2b c2a).title = some "Y" ∧
    (mergeRecords c2a c2b).title ≠ (mergeRecords c2b c2a).title := by
  decide

/-- C2 amended: for two records with the same identifier, the merged id is
identical in both orders and the merged `last_modified_date` equals the
optional maximum of the two inputs in both orders; the merged description
and title are identical in both orders provided the two inputs do not
carry distinct values of equal truthiness for that field (i.e. exactly one
input has a non-empty value, or both carry the same value). -/
theorem c2_amended (a b : Vulnerability) (hid : a.id = b.id)
    (ht : truthyStr a.title = truthyStr b.title → a.title = b.title)
    (hd : truthyStr a.description = truthyStr b.description →
      a.description = b.description) :
    (mergeRecords a b).id = (mergeRecords b a).id ∧
    (mergeRecords a b).title = (mergeRecords b a).title ∧
    (mergeRecords a b).description = (mergeRecords b a).description ∧
    (mergeRecords a b).last_modified_date =
      omax a.last_modified_date b.last_modified_date ∧
    (mergeRecords b a).last_modified_date =
      omax a.last_modified_date b.last_modified_date := by
  refine ⟨hid, ?_, ?_, mergeRecords_lmd a b, ?_⟩
  · show (if truthyStr b.title && !truthyStr a.title then b.title else a.title) =
      (if truthyStr a.title && !truthyStr b.title then a.title else b.title)
    cases h1 : truthyStr a.title <;> cases h2 : truthyStr b.title <;>
      simp [h1, h2]
    · exact ht (h1.trans h2.symm)
    · exact ht (h1.trans h2.symm)
  · show (if truthyStr b.description && !truthyStr a.description
        then b.description else a.description) =
      (if truthyStr a.description && !truthyStr b.description
        then a.description else b.description)
    cases h1 : truthyStr a.description <;> cases h2 : truthyStr b.description <;>
      simp [h1, h2]
    · exact hd (h1.trans h2.symm)
    · exact hd (h1.trans h2.symm)
  · rw [mergeRecords_lmd b a, omax_comm]

/-- C2 witness: the amended theorem applied to two concrete records, one
with a title and one without, with modification dates 5 and 9. -/
theorem c2_witness :
    (mergeRecords w2a w2b).id = (mergeRecords w2b w2a).id ∧
    (mergeRecords w2a w2b).title = (mergeRecords w2b w2a).title ∧
    (mergeRecords w2a w2b).description = (mergeRecords w2b w2a).description ∧
    (mergeRecords w2a w2b).last_modified_date =
      omax w2a.last_modified_date w2b.last_modified_date ∧
    (mergeRecords w2b w2a).last_modified_date =
      omax w2a.last_modified_date w2b.last_modified_date :=
  c2_amended w2a w2b rfl (by decide) (by decide)

/-! ## C9 — patch-link classification (corrected) -/

/-- C9 counterexample: a reference whose tag list contains the keyword
`fix` but whose URL contains no keyword is not classified as a likely
patch, although the claim (keywords searched in URL or tag set) classifies
it as one; the code searches keywords only in the URL and looks in the
tags only for the exact tag `Patch`. -/
theorem c9_counterexample :
    is_likely_patch "example.com" ["fix"] = false ∧
    specLikelyPatch "example.com" ["fix"] = true := by
  decide

/-- C9 amended: a reference is classified as a likely patch link if and
only if its URL contains one of the keywords patch, fix, update, resolve,
mitigate as a case-insensitive substring, or its tag list contains the
exact tag `Patch`; keywords inside tag texts are not considered. -/
theorem c9_amended (url : String) (tags : List String) :
    is_likely_patch url tags = true ↔
      ((∃ k ∈ patch_keywords, substrIn k.data (pyLower url).data = true) ∨
        "Patch" ∈ tags) := by
  simp [is_likely_patch, List.any_eq_true, List.elem_iff]

/-! ## C8 — records lacking an identifier (corrected) -/

/-- C8 counterexample: a raw record that lacks an identifier but is
otherwise well formed is NOT rejected; `from_json` produces a canonical
record whose `cve_id` is the empty string (per its own source comment,
missing ids default to the empty string), and `from_dict` — run with the
date parser behaving as `fromisoformat` does on the two well-formed date
strings — produces a record whose id is absent. -/
theorem c8_counterexample :
    (from_json c8raw).map (fun d => d.cve_id) = some "" ∧
    (from_dict c8parse c8raw).map (fun d => d.id) = some none := by
  decide

/-- C8 amended: for every raw record lacking an identifier and every
behaviour of the external date parser, the source normalizers never fail
with a MalformedRecord condition on account of the id (no such condition
exists in the code): `from_json` either raises for an unrelated reason
(`IndexError` on a present-but-empty `cvssMetricV31` list) or defaults the
identifier to the empty string, and `from_dict` either raises for an
unrelated reason (missing or unparseable dates) or yields a record with an
absent identifier. -/
theorem c8_amended (c : RawCveItem) (hc : c.id = none)
    (parseDate : String → Option Nat) :
    ((from_json { cve := some c }).map (fun d => d.cve_id) = some "" ∨
      from_json { cve := some c } = none) ∧
    ((from_dict parseDate { cve := some c }).map (fun d => d.id) = some none ∨
      from_dict parseDate { cve := some c } = none) := by
  constructor
  · unfold from_json
    cases hm : c.metrics with
    | none => simp [hm, hc]
    | some m =>
      cases hl : m.cvssMetricV31 with
      | none => simp [hm, hl, hc]
      | some l =>
        cases l with
        | nil => simp [hm, hl]
        | cons entry rest => simp [hm, hl, hc]
  · unfold from_dict
    cases hp : c.published with
    | none => simp [hp]
    | some p =>
      cases hl : c.lastModified with
      | none => simp [hp, hl]
      | some l =>
        cases hdp : parseDate p with
        | none => simp [hp, hl, hdp]
        | some dp =>
          cases hdl : parseDate l with
          | none => simp [hp, hl, hdp, hdl]
          | some dl => simp [hp, hl, hdp, hdl, hc]

/-- C8 witness: the amended theorem applied to the concrete id-less raw
item with well-formed dates and the concrete parser behaviour. -/
theorem c8_witness :
    ((from_json { cve := some c8item }).map (fun d => d.cve_id) = some "" ∨
      from_json { cve := some c8item } = none) ∧
    ((from_dict c8parse { cve := some c8item }).map (fun d => d.id) = some none ∨
      from_dict c8parse { cve := some c8item } = none) :=
  c8_amended c8item rfl c8parse

/-! ## C7 — CPE decomposition (confirmed) -/

/-- C7: a CPE identifier with fewer than 5 colon-delimited fields is
skipped leaving the package list unchanged; a well-formed identifier with
a wildcard version yields only the base package; one with a concrete
version yields the base package carrying exactly one Version with the
affected/fixed status from the `vulnerable` flag; in particular the two
spec examples produce Package `acme/widget` (platform `a`) with one
Version `1.2` and with zero Versions respectively. -/
theorem c7_cpe_decomposition :
    (∀ (cm : CPEMatch) (pkgs : List Package),
      (cpeParts cm).length < 5 → addCpe pkgs cm = pkgs) ∧
    (∀ cm : CPEMatch, cm.cpe23Uri ≠ "" → 5 ≤ (cpeParts cm).length →
      cpeVersionField cm = "*" → addCpe [] cm = [cpeBase cm]) ∧
    (∀ cm : CPEMatch, cm.cpe23Uri ≠ "" → 5 ≤ (cpeParts cm).length →
      cpeVersionField cm ≠ "*" →
      addCpe [] cm = [{ cpeBase cm with versions :=
        [{ version := cpeVersionField cm
           status := if cm.vulnerable then "affected" else "fixed" }] }]) ∧
    extractAffectedPackages [⟨[NodeT.mk [c7cm1] []]⟩] =
      [{ c7pkg with versions := [{ version := "1.2", status := "affected" }] }] ∧
    extractAffectedPackages [⟨[NodeT.mk [c7cm2] []]⟩] = [c7pkg] := by
  refine ⟨?_, ?_, ?_, by decide, by decide⟩
  · intro cm pkgs hlen
    unfold addCpe
    split
    · rfl
    · simp [cpeParts] at hlen
      simp [hlen]
  · intro cm hne hlen hwild
    have hne2 : (cm.cpe23Uri == "") = false := by
      simpa using hne
    have hlt : ¬ (splitColon cm.cpe23Uri).length < 5 := by
      simp [cpeParts] at hlen; omega
    simp only [addCpe, hne2, Bool.false_eq_true, if_false, hlt]
    have hv : (if 5 < (splitColon cm.cpe23Uri).length
        then (splitColon cm.cpe23Uri).getD 5 "" else "*") = "*" := by
      simpa [cpeVersionField, cpeParts] using hwild
    simp [hv, cpeBase, cpeParts]
    intro h5 hne5
    exfalso
    rw [if_pos h5] at hv
    simp at hv
    exact hne5 hv
  · intro cm hne hlen hver
    have hne2 : (cm.cpe23Uri == "") = false := by
      simpa using hne
    have hlt : ¬ (splitColon cm.cpe23Uri).length < 5 := by
      simp [cpeParts] at hlen; omega
    simp only [addCpe, hne2, Bool.false_eq_true, if_false, hlt]
    have hv : (if 5 < (splitColon cm.cpe23Uri).length
        then (splitColon cm.cpe23Uri).getD 5 "" else "*") = cpeVersionField cm := by
      simp [cpeVersionField, cpeParts]
    rw [hv]
    have hvb : (cpeVersionField cm != "*") = true := by
      simpa using hver
    simp [hvb, addVerFirst, cpeBase, cpeParts]

/-- C7 witness: the concrete-version branch of the decomposition theorem
applied to the first spec example. -/
theorem c7_witness :
    addCpe [] c7cm1 = [{ cpeBase c7cm1 with versions :=
      [{ version := cpeVersionField c7cm1
         status := if c7cm1.vulnerable then "affected" else "fixed" }] }] :=
  c7_cpe_decomposition.2.2.1 c7cm1 (by decide) (by decide) (by decide)

/-! ## C1 — risk score aggregation (corrected) -/

theorem riskFold_total_aux (pn : String) (l : List Vulnerability)
    (init : RiskLoopState) :
    (l.foldl (riskStep pn) init).total = init.total + (l.map bestScore).sum := by
  induction l generalizing init with
  | nil => simp
  | cons v rest ih => simp [ih, riskStep, add_assoc]

theorem riskFold_total (pn : String) (l : List Vulnerability) :
    (riskFold pn l).total = (l.map bestScore).sum := by
  simpa [riskFold] using riskFold_total_aux pn l ⟨0, 0, 0, 0, none⟩

/-- C1 counterexample: for a package with vulnerabilities scored
[9.0, 5.0, none], `assess_risk` divides the summed scores — counting the
unscored vulnerability as 0 — by the total number of vulnerabilities,
yielding 14/3 (rounded 4.67) and level medium, not 7.0 and high as the
claim states. -/
theorem c1_counterexample :
    (assess_risk "p" none [c1v1, c1v2, c1v3]).risk_score = 467/100 ∧
    (assess_risk "p" none [c1v1, c1v2, c1v3]).risk_level = "medium" ∧
    (assess_risk "p" none [c1v1, c1v2, c1v3]).risk_score ≠ 7 ∧
    (assess_risk "p" none [c1v1, c1v2, c1v3]).risk_level ≠ "high" := by
  with_unfolding_all decide

/-- C1 amended: for every non-empty set of vulnerabilities affecting a
package (no version filter), the risk score is the rounded quotient of
the summed best-available CVSS base scores — v3 preferred over v2 and 0
for vulnerabilities with neither — by the TOTAL number of vulnerabilities
(unscored ones count in the denominator), and the risk level applies the
7.0/4.0/0 thresholds to the unrounded quotient. -/
theorem c1_amended (package_name : String) (vulns : List Vulnerability)
    (h : vulns ≠ []) :
    (assess_risk package_name none vulns).risk_score =
      round2 ((vulns.map bestScore).sum / vulns.length) ∧
    (assess_risk package_name none vulns).risk_level =
      riskLevelOf ((vulns.map bestScore).sum / vulns.length) := by
  have hne : vulns.isEmpty = false := by
    simpa [List.isEmpty_iff] using h
  constructor <;> simp [assess_risk, hne, riskFold_total]

/-- C1 witness: the amended theorem applied to the singleton list holding
the 9.0-scored vulnerability. -/
theorem c1_witness :
    (assess_risk "p" none [c1v1]).risk_score =
      round2 (([c1v1].map bestScore).sum / ([c1v1] : List Vulnerability).length) ∧
    (assess_risk "p" none [c1v1]).risk_level =
      riskLevelOf (([c1v1].map bestScore).sum / ([c1v1] : List Vulnerability).length) :=
  c1_amended "p" [c1v1] (by simp)

/-! ## C3 — similarity clustering (corrected) -/

/-- C3 counterexample: with three records where 0–1 and 1–2 are similar
(0.9 ≥ 0.8) but 0–2 are not (0.1), the code emits the clusters
[0, 1] and [2, 1] — record 1, although already assigned to the first
cluster, is pulled into the second, because the inner match loop never
consults the assigned set; the spec-worded algorithm emits [0, 1] only. -/
theorem c3_counterexample :
    findSimilarGroups simEx (8/10) 3 = [[0, 1], [2, 1]] ∧
    findSimilarGroupsSpec simEx (8/10) 3 = [[0, 1]] ∧
    findSimilarGroups simEx (8/10) 3 ≠ findSimilarGroupsSpec simEx (8/10) 3 := by
  with_unfolding_all decide

/-- C3 amended: records are visited in input order; a record already
assigned is skipped as an anchor; every emitted cluster consists of a
pending, not-previously-assigned anchor followed by ALL other records
whose similarity to it reaches the threshold — whether or not they are
already assigned to an earlier cluster (so a record can appear in several
clusters) — and clusters are only emitted when at least one match exists
(no singletons). -/
theorem c3_amended (sim : Nat → Nat → ℚ) (thr : ℚ) (n : Nat)
    (pending used : List Nat) (g : List Nat)
    (hg : g ∈ clusterGo sim thr n pending used) :
    g.headD 0 ∈ pending ∧ g.headD 0 ∉ used ∧
    similarIndices sim thr n (g.headD 0) ≠ [] ∧
    g = g.headD 0 :: similarIndices sim thr n (g.headD 0) := by
  induction pending generalizing used with
  | nil => simp [clusterGo] at hg
  | cons i rest ih =>
    simp only [clusterGo] at hg
    by_cases hi : i ∈ used
    · rw [if_pos hi] at hg
      obtain ⟨h1, h2, h3, h4⟩ := ih used hg
      exact ⟨List.mem_cons_of_mem i h1, h2, h3, h4⟩
    · rw [if_neg hi] at hg
      by_cases hs : (similarIndices sim thr n i).isEmpty
      · rw [if_pos hs] at hg
        obtain ⟨h1, h2, h3, h4⟩ := ih used hg
        exact ⟨List.mem_cons_of_mem i h1, h2, h3, h4⟩
      · rw [if_neg hs] at hg
        rcases List.mem_cons.mp hg with hEq | hTail
        · subst hEq
          refine ⟨List.mem_cons_self i rest, hi, ?_, rfl⟩
          simpa [List.isEmpty_iff] using hs
        · obtain ⟨h1, h2, h3, h4⟩ := ih (used ++ i :: similarIndices sim thr n i) hTail
          refine ⟨List.mem_cons_of_mem i h1, ?_, h3, h4⟩
          intro hmem
          exact h2 (List.mem_append_left _ hmem)

/-- C3 witness: the amended theorem applied to the first cluster emitted
on the counterexample similarity matrix. -/
theorem c3_witness :
    ([0, 1] : List Nat).headD 0 ∈ List.range 3 ∧
    ([0, 1] : List Nat).headD 0 ∉ ([] : List Nat) ∧
    similarIndices simEx (8/10) 3 (([0, 1] : List Nat).headD 0) ≠ [] ∧
    ([0, 1] : List Nat) =
      ([0, 1] : List Nat).headD 0 ::
        similarIndices simEx (8/10) 3 (([0, 1] : List Nat).headD 0) :=
  c3_amended simEx (8/10) 3 (List.range 3) [] [0, 1]
    (by with_unfolding_all decide)

/-! ## C4 — relationship graph (corrected) -/

theorem buildGraph_flat_aux (vulns : List Vulnerability) (st : GraphState) :
    vulns.foldl (fun st v => v.affected_packages.foldl processPkg st) st =
      ((vulns.map (fun v => v.affected_packages)).flatten).foldl processPkg st := by
  induction vulns generalizing st with
  | nil => rfl
  | cons v rest ih => simp [List.foldl_append, ih]

theorem buildGraph_eq_flat (vulns : List Vulnerability) :
    buildGraph vulns =
      buildGraphP ((vulns.map (fun v => v.affected_packages)).flatten) :=
  buildGraph_flat_aux vulns ⟨[], []⟩

theorem stepNode_edges (st : GraphState) (p : Package) :
    (stepNode st p).edges = st.edges := by
  unfold stepNode; split <;> rfl

theorem stepEco_edges_sub (st : GraphState) (p : Package) (a : String × String)
    (h : a ∈ st.edges) : a ∈ (stepEco st p).edges := by
  unfold stepEco
  split
  · exact h
  · split
    · simp [List.mem_append, h]
    · exact h

theorem stepPlatform_edges_sub (st : GraphState) (p : Package) (a : String × String)
    (h : a ∈ st.edges) : a ∈ (stepPlatform st p).edges := by
  unfold stepPlatform
  split
  · exact h
  · split
    · simp [List.mem_append, h]
    · exact h

theorem processPkg_edges_sub (st : GraphState) (p : Package) (a : String × String)
    (h : a ∈ st.edges) : a ∈ (processPkg st p).edges := by
  unfold processPkg
  apply stepPlatform_edges_sub
  apply stepEco_edges_sub
  rw [stepNode_edges]
  exact h

theorem foldl_edges_sub (l : List Package) (st : GraphState) (a : String × String)
    (h : a ∈ st.edges) : a ∈ (l.foldl processPkg st).edges := by
  induction l generalizing st with
  | nil => exact h
  | cons p rest ih => exact ih (processPkg st p) (processPkg_edges_sub st p a h)

theorem hasNode_false_iff (st : GraphState) (x : String) :
    hasNode st x = false ↔ x ∉ st.nodes.map Prod.fst := by
  unfold hasNode
  rw [List.any_eq_false]
  simp [List.mem_map]
  aesop

theorem good_append_node (st : GraphState) (e kind : String)
    (hfresh : e ∉ st.nodes.map Prod.fst) (hg : GoodState st) :
    GoodState ⟨st.nodes ++ [(e, kind)], st.edges⟩ := by
  obtain ⟨hn, he, hi⟩ := hg
  refine ⟨?_, he, ?_⟩
  · simp only [List.map_append, List.map_cons, List.map_nil]
    rw [List.nodup_append]
    exact ⟨hn, List.nodup_singleton e, by
      intro x hx hxe
      simp at hxe
      subst hxe
      exact hfresh hx⟩
  · intro a ha
    simp only [List.map_append, List.map_cons, List.map_nil]
    exact List.mem_append_left _ (hi a ha)

theorem good_add_edge (st : GraphState) (nm e kind : String)
    (hfresh : e ∉ st.nodes.map Prod.fst) (hg : GoodState st) :
    GoodState ⟨st.nodes ++ [(e, kind)], st.edges ++ [(nm, e)]⟩ := by
  obtain ⟨hn, he, hi⟩ := hg
  have hnodes := (good_append_node st e kind hfresh ⟨hn, he, hi⟩).1
  refine ⟨hnodes, ?_, ?_⟩
  · rw [List.nodup_append]
    refine ⟨he, List.nodup_singleton _, ?_⟩
    intro a ha hae
    simp at hae
    subst hae
    exact hfresh (hi _ ha)
  · intro a ha
    simp only [List.map_append, List.map_cons, List.map_nil]
    rcases List.mem_append.mp ha with hold | hnew
    · exact List.mem_append_left _ (hi a hold)
    · simp at hnew
      subst hnew
      simp

theorem good_stepNode (st : GraphState) (p : Package) (hg : GoodState st) :
    GoodState (stepNode st p) := by
  unfold stepNode
  by_cases hc : hasNode st p.name = true
  · rw [if_pos hc]; exact hg
  · rw [if_neg hc]
    exact good_append_node st p.name "package"
      ((hasNode_false_iff st p.name).mp (Bool.not_eq_true _ ▸ hc)) hg

theorem good_stepEco (st : GraphState) (p : Package) (hg : GoodState st) :
    GoodState (stepEco st p) := by
  unfold stepEco
  cases hpe : p.ecosystem with
  | none => exact hg
  | some e =>
    dsimp only
    by_cases hc : (e != "" && !hasNode st e) = true
    · rw [if_pos hc]
      have h2 : hasNode st e = false := by
        simp only [Bool.and_eq_true, Bool.not_eq_eq_eq_not, Bool.not_true] at hc
        exact hc.2
      exact good_add_edge st p.name e "ecosystem"
        ((hasNode_false_iff st e).mp h2) hg
    · rw [if_neg hc]; exact hg

theorem good_stepPlatform (st : GraphState) (p : Package) (hg : GoodState st) :
    GoodState (stepPlatform st p) := by
  unfold stepPlatform
  cases hpq : p.platform with
  | none => exact hg
  | some q =>
    dsimp only
    by_cases hc : (q != "" && !hasNode st q) = true
    · rw [if_pos hc]
      have h2 : hasNode st q = false := by
        simp only [Bool.and_eq_true, Bool.not_eq_eq_eq_not, Bool.not_true] at hc
        exact hc.2
      exact good_add_edge st p.name q "platform"
        ((hasNode_false_iff st q).mp h2) hg
    · rw [if_neg hc]; exact hg

theorem good_processPkg (st : GraphState) (p : Package) (hg : GoodState st) :
    GoodState (processPkg st p) :=
  good_stepPlatform _ p (good_stepEco _ p (good_stepNode st p hg))

theorem good_foldl (l : List Package) (st : GraphState) (hg : GoodState st) :
    GoodState (l.foldl processPkg st) := by
  induction l generalizing st with
  | nil => exact hg
  | cons p rest ih => exact ih (processPkg st p) (good_processPkg st p hg)

theorem good_empty : GoodState ⟨[], []⟩ := by
  refine ⟨List.nodup_nil, List.nodup_nil, ?_⟩
  intro a ha
  simp at ha

theorem buildGraphP_split (pre post : List Package) (p : Package) :
    buildGraphP (pre ++ p :: post) =
      post.foldl processPkg (processPkg (buildGraphP pre) p) := by
  unfold buildGraphP
  rw [List.foldl_append]
  rfl

theorem stepEco_adds_edge (st : GraphState) (p : Package) (e : String)
    (hpe : p.ecosystem = some e) (hne : e ≠ "")
    (hfresh : hasNode st e = false) :
    (p.name, e) ∈ (stepEco st p).edges := by
  unfold stepEco
  rw [hpe]
  dsimp only
  have hc : (e != "" && !hasNode st e) = true := by
    simp [hne, hfresh]
  rw [if_pos hc]
  simp

theorem stepPlatform_adds_edge (st : GraphState) (p : Package) (q : String)
    (hpq : p.platform = some q) (hne : q ≠ "")
    (hfresh : hasNode st q = false) :
    (p.name, q) ∈ (stepPlatform st p).edges := by
  unfold stepPlatform
  rw [hpq]
  dsimp only
  have hc : (q != "" && !hasNode st q) = true := by
    simp [hne, hfresh]
  rw [if_pos hc]
  simp

/-- C4 counterexample: two packages p1 and p2 share the ecosystem npm; the
code adds the package–ecosystem edge only in the branch that creates the
ecosystem node, so the resulting graph carries an edge p1–npm but no edge
between p2 and npm even though p2 carries the tag, refuting the claim. -/
theorem c4_counterexample :
    buildGraph [c4v] =
      { nodes := [("p1", "package"), ("npm", "ecosystem"), ("p2", "package")]
        edges := [("p1", "npm")] } ∧
    ("p2", "npm") ∉ (buildGraph [c4v]).edges ∧
    ("npm", "p2") ∉ (buildGraph [c4v]).edges := by
  decide

/-- C4 amended: the graph never contains duplicate node identifiers or
duplicate edges; and a package is connected to its ecosystem (resp.
platform) tag exactly in the branch that first creates that tag node — the
edge is guaranteed only when, at the moment the package is processed, no
node with the tag identifier exists yet. -/
theorem c4_amended (vulns : List Vulnerability) :
    ((buildGraph vulns).nodes.map Prod.fst).Nodup ∧
    (buildGraph vulns).edges.Nodup ∧
    (∀ pre p post,
      (vulns.map (fun v => v.affected_packages)).flatten = pre ++ p :: post →
      (∀ e, p.ecosystem = some e → e ≠ "" →
        hasNode (stepNode (buildGraphP pre) p) e = false →
        (p.name, e) ∈ (buildGraph vulns).edges) ∧
      (∀ q, p.platform = some q → q ≠ "" →
        hasNode (stepEco (stepNode (buildGraphP pre) p) p) q = false →
        (p.name, q) ∈ (buildGraph vulns).edges)) := by
  have hflat := buildGraph_eq_flat vulns
  have hgood : GoodState (buildGraph vulns) := by
    rw [hflat]
    exact good_foldl _ _ good_empty
  refine ⟨hgood.1, hgood.2.1, ?_⟩
  intro pre p post hsplit
  constructor
  · intro e hpe hne hfresh
    rw [hflat, hsplit, buildGraphP_split]
    apply foldl_edges_sub
    apply stepPlatform_edges_sub
    exact stepEco_adds_edge _ p e hpe hne hfresh
  · intro q hpq hne hfresh
    rw [hflat, hsplit, buildGraphP_split]
    apply foldl_edges_sub
    exact stepPlatform_adds_edge _ p q hpq hne hfresh

/-- C4 witness: applying the amended theorem to the counterexample input
at the split before p1 yields the p1–npm edge (npm is fresh there). -/
theorem c4_witness : ("p1", "npm") ∈ (buildGraph [c4v]).edges :=
  (((c4_amended [c4v]).2.2 [] c4p1 [c4p2] (by decide)).1) "npm" rfl
    (by decide) (by decide)
